import Mathlib

/-!
Verification of the snapshot-merger cross-snapshot account merge engine.

Shallow embedding of `src/main.rs` and `src/merge.rs`: accounts are keyed
records held in a bank; the merge pipeline zeroes the target's vote and stake
accounts, stores the source's vote and stake accounts, recomputes the
capitalization, and optionally warps the merged bank to a later slot.
The batched variant of `add_accounts` (from `merge.rs`) splits the work across
successive slots under a byte limit and a periodic flush discipline.
-/

/-- Account keys (`Pubkey`): fixed-length opaque identifiers with byte-exact
equality, modelled as natural numbers. -/
abbrev Pubkey := Nat

/-- `AccountSharedData`: balance, data bytes, owning program, executable flag
and rent epoch, as in `solana_account`. -/
structure AccountSharedData where
  lamports : Nat
  data : List Nat
  owner : Pubkey
  executable : Bool
  rent_epoch : Nat
deriving DecidableEq, Repr

/-- The well-known vote program authority identifier (`solana_vote_program::id()`). -/
def vote_program_id : Pubkey := 1

/-- The well-known stake program authority identifier (`solana_stake_program::id()`). -/
def stake_program_id : Pubkey := 2

/-- A bank's account store: a finite map from key to record, modelled as an
association list. `store_account` keeps keys unique. -/
abbrev Accounts := List (Pubkey × AccountSharedData)

/-- `Bank::store_account`: overwrite the record at a key, inserting it if absent. -/
def store_account (accts : Accounts) (k : Pubkey) (a : AccountSharedData) : Accounts :=
  (k, a) :: accts.filter (fun p => decide (p.1 ≠ k))

/-- Look up the record stored at a key. -/
def get_account (accts : Accounts) (k : Pubkey) : Option AccountSharedData :=
  (accts.find? (fun p => decide (p.1 = k))).map Prod.snd

/-- `Bank::get_program_accounts`: every record owned by the given program id.
The accounts-db scan only yields loadable records, i.e. those with nonzero
lamports. -/
def get_program_accounts (accts : Accounts) (pid : Pubkey) : Accounts :=
  accts.filter (fun p => decide (p.2.owner = pid ∧ p.2.lamports ≠ 0))

/-- `AccountSharedData::set_lamports`. -/
def set_lamports (a : AccountSharedData) (n : Nat) : AccountSharedData :=
  { a with lamports := n }

/-- `remove_vote_accounts` (`merge.rs` lines 65-105, `main.rs` lines 140-156):
scan the vote-program accounts, zero each one's lamports and store it back;
returns the updated store and the count of zeroed accounts. -/
def remove_vote_accounts (accts : Accounts) : Accounts × Nat :=
  let found := get_program_accounts accts vote_program_id
  (found.foldl (fun b p => store_account b p.1 (set_lamports p.2 0)) accts, found.length)

/-- `remove_stake_accounts` (`merge.rs` lines 86-105, `main.rs` lines 158-174):
same loop over the stake-program accounts. -/
def remove_stake_accounts (accts : Accounts) : Accounts × Nat :=
  let found := get_program_accounts accts stake_program_id
  (found.foldl (fun b p => store_account b p.1 (set_lamports p.2 0)) accts, found.length)

/-- `extract_vote_accounts`: collect the source snapshot's vote-program accounts. -/
def extract_vote_accounts (accts : Accounts) : Accounts :=
  get_program_accounts accts vote_program_id

/-- `extract_stake_accounts`: collect the source snapshot's stake-program accounts. -/
def extract_stake_accounts (accts : Accounts) : Accounts :=
  get_program_accounts accts stake_program_id

/-- `add_accounts` (`main.rs` lines 176-189): store every record of the given
set into the bank. -/
def add_accounts_simple (accts : Accounts) (toAdd : Accounts) : Accounts :=
  toAdd.foldl (fun b p => store_account b p.1 p.2) accts

/-- The records visible to a live scan: those with nonzero balance. -/
def live_accounts (accts : Accounts) : Accounts :=
  accts.filter (fun p => decide (p.2.lamports ≠ 0))

/-- Steps 6-7 of `merge_snapshots` (`main.rs` lines 281-289) on the account
store: zero the target's vote and stake accounts, then store the source's
vote and stake accounts. -/
def merge_snapshots_accounts (target source : Accounts) : Accounts :=
  let a1 := (remove_vote_accounts target).1
  let a2 := (remove_stake_accounts a1).1
  let a3 := add_accounts_simple a2 (extract_vote_accounts source)
  add_accounts_simple a3 (extract_stake_accounts source)

/-- `Bank`: a mutable working state at one slot with a parent link, a
collector identifier, an account store, a stored capitalization and the
squashed/flushed lifecycle flags. -/
structure Bank where
  slot : Nat
  parentSlot : Option Nat
  collector_id : Pubkey
  accounts : Accounts
  capitalization : Nat
  squashed : Bool
  flushed : Bool
deriving DecidableEq, Repr

/-- `Bank::squash`: the bank becomes immutable and eligible to be a parent. -/
def squash (b : Bank) : Bank := { b with squashed := true }

/-- `Bank::force_flush_accounts_cache`: pending writes become durable. -/
def force_flush_accounts_cache (b : Bank) : Bank := { b with flushed := true }

/-- `Bank::new_from_parent`: a fresh working child at the given slot with the
given collector, seeing the parent's accounts through its ancestry. -/
def new_from_parent (parent : Bank) (collector : Pubkey) (slot : Nat) : Bank :=
  { slot := slot, parentSlot := some parent.slot, collector_id := collector,
    accounts := parent.accounts, capitalization := parent.capitalization,
    squashed := false, flushed := false }

/-- Modelled from the spec: `Bank::warp_from_parent` lives in `solana_runtime`,
not in this repository. Per the Slot Warp Controller contract it requires a
squashed, flushed parent and a target slot strictly beyond the parent's, and
produces a child at exactly the target slot whose parent link is the input. -/
def warp_from_parent (parent : Bank) (collector : Pubkey) (targetSlot : Nat) :
    Except String Bank :=
  if parent.squashed = true ∧ parent.flushed = true ∧ parent.slot < targetSlot then
    Except.ok (new_from_parent parent collector targetSlot)
  else Except.error "warp precondition violated"

/-- Modelled from the spec: `Bank::calculate_capitalization_for_tests` lives in
`solana_runtime`, not in this repository. Per the Capitalization Reconciler it
performs a full scan and sums all live balances with exact (wider-intermediate)
arithmetic; zero-balance records contribute nothing to the sum. -/
def calculate_capitalization (b : Bank) : Nat :=
  (b.accounts.map (fun p => p.2.lamports)).sum

/-- Modelled from the spec: `Bank::set_capitalization_for_tests` lives in
`solana_runtime`; it overwrites the stored aggregate field. -/
def set_capitalization (b : Bank) (c : Nat) : Bank := { b with capitalization := c }

/-- Step 8 of `merge_snapshots` (`main.rs` lines 292-295): recompute the
capitalization and store it back. -/
def recalculate_capitalization (b : Bank) : Bank :=
  set_capitalization b (calculate_capitalization b)

/-- Step 9 of `merge_snapshots` (`main.rs` lines 305-318): when a warp slot is
requested, squash and flush the merged bank and warp from it; otherwise the
merged bank itself is the final bank. -/
def warp_step (merged : Bank) (warpSlot : Option Nat) : Except String Bank :=
  match warpSlot with
  | some s =>
      let sq := force_flush_accounts_cache (squash merged)
      warp_from_parent sq sq.collector_id s
  | none => Except.ok merged

/-- The unsigned decimal parse clap's `value_t!` applies to the `--warp-slot`
value (`u64::from_str`): an optional leading `+` sign, then one or more
digits, and the value must fit in 64 bits — a digit string at or above
`2 ^ 64` overflows and fails to parse. -/
def parse_slot (s : String) : Option Nat :=
  let ds := match s.data with
    | c :: rest => if c = Char.ofNat 43 then rest else s.data
    | [] => []
  if ds ≠ [] ∧ ds.all (fun c => c.isDigit) then
    let v := ds.foldl (fun n c => n * 10 + (c.toNat - Char.toNat (Char.ofNat 48))) 0
    if v < 2 ^ 64 then some v else none
  else none

/-- `main.rs` line 400: `value_t!(matches, "warp_slot", Slot).ok()` — an
absent or unparseable warp-slot argument both become `none`. -/
def parse_warp_slot (arg : Option String) : Option Nat :=
  arg.bind parse_slot

/-- Observable events of the batched apply loop, in program order. -/
inductive MergeEvent where
  | store (slot : Nat) (key : Pubkey)
  | flush (slot : Nat)
  | squashed (slot : Nat)
  | newBank (slot : Nat) (collector : Pubkey)
deriving DecidableEq, Repr

/-- `FLUSH_INTERVAL_ACCOUNTS` (`merge.rs` line 119). -/
def FLUSH_INTERVAL_ACCOUNTS : Nat := 250000

/-- `ACCOUNT_STORAGE_OVERHEAD` (`merge.rs` line 124). -/
def ACCOUNT_STORAGE_OVERHEAD : Nat := 512

/-- The per-record cost model: `account.data().len() + ACCOUNT_STORAGE_OVERHEAD`. -/
def account_cost (a : AccountSharedData) : Nat := a.data.length + ACCOUNT_STORAGE_OVERHEAD

/-- The loop state of `merge.rs::add_accounts`: the current working bank, the
record counter since the last reset, the byte accumulator of the current slot
and the event trace so far. -/
structure LoopState where
  bank : Bank
  count_since_flush : Nat
  bytes_in_current_slot : Nat
  trace : List MergeEvent
deriving DecidableEq, Repr

/-- One iteration of the `merge.rs::add_accounts` loop (lines 126-159): store
the record, bump the counter and the byte accumulator, flush when the counter
hits a multiple of `FLUSH_INTERVAL_ACCOUNTS`, and when the accumulator reaches
the byte limit flush, squash, and open a fresh child at the next slot with the
same collector, resetting both accumulators. -/
def add_accounts_step (slot_byte_limit : Nat) (st : LoopState)
    (pa : Pubkey × AccountSharedData) : LoopState :=
  let bank1 : Bank := { st.bank with accounts := store_account st.bank.accounts pa.1 pa.2 }
  let count1 := st.count_since_flush + 1
  let bytes1 := st.bytes_in_current_slot + account_cost pa.2
  let trace1 := st.trace ++ [MergeEvent.store bank1.slot pa.1]
  let trace2 := if count1 % FLUSH_INTERVAL_ACCOUNTS = 0
    then trace1 ++ [MergeEvent.flush bank1.slot] else trace1
  if slot_byte_limit ≤ bytes1 then
    let parent := force_flush_accounts_cache (squash bank1)
    let next := new_from_parent parent parent.collector_id (parent.slot + 1)
    { bank := next, count_since_flush := 0, bytes_in_current_slot := 0,
      trace := trace2 ++ [MergeEvent.flush parent.slot, MergeEvent.squashed parent.slot,
                          MergeEvent.newBank next.slot parent.collector_id] }
  else
    { bank := bank1, count_since_flush := count1, bytes_in_current_slot := bytes1,
      trace := trace2 }

/-- `merge.rs::add_accounts` (lines 107-172): fold the loop body over the
ordered record sequence starting from the given bank, then perform the
unconditional final flush. -/
def add_accounts (starting_bank : Bank) (accounts : Accounts) (slot_byte_limit : Nat) :
    LoopState :=
  let fin := accounts.foldl (add_accounts_step slot_byte_limit)
    { bank := starting_bank, count_since_flush := 0, bytes_in_current_slot := 0, trace := [] }
  { fin with trace := fin.trace ++ [MergeEvent.flush fin.bank.slot] }

/-- Is this event a store into the given slot? -/
def is_store_at (s : Nat) : MergeEvent → Bool
  | MergeEvent.store s2 _ => s2 == s
  | _ => false

/-- How many records landed in the given slot. -/
def records_in_slot (tr : List MergeEvent) (s : Nat) : Nat :=
  (tr.filter (is_store_at s)).length

/-- Is this event the creation of a new child bank? -/
def is_new_bank : MergeEvent → Bool
  | MergeEvent.newBank _ _ => true
  | _ => false

/-- How many child banks the loop created beyond the starting one. -/
def new_banks_created (tr : List MergeEvent) : Nat := (tr.filter is_new_bank).length

/-- The slot each stored record landed in, in application order. -/
def store_slots (tr : List MergeEvent) : List Nat :=
  tr.filterMap (fun e => match e with | MergeEvent.store s _ => some s | _ => none)

/-- The slots that were squashed, in order. -/
def squash_slots (tr : List MergeEvent) : List Nat :=
  tr.filterMap (fun e => match e with | MergeEvent.squashed s => some s | _ => none)

/-- Spec-level greedy accumulator: fold the costs, counting a slot boundary
whenever the cost accumulated since the last boundary reaches the limit. -/
def greedy_step (L : Nat) (acc : Nat × Nat) (c : Nat) : Nat × Nat :=
  let t := acc.2 + c
  if L ≤ t then (acc.1 + 1, 0) else (acc.1, t)

/-- Number of slot boundaries the greedy cost accumulator produces. -/
def greedy_boundaries (costs : List Nat) (L : Nat) : Nat :=
  (costs.foldl (greedy_step L) (0, 0)).1

/-- The slot assignment determined purely by the cost list: which slot each
record lands in, starting from the given slot and byte accumulator. -/
def slot_layout (costs : List Nat) (L : Nat) (slot bytes : Nat) : List Nat :=
  match costs with
  | [] => []
  | c :: rest =>
    let t := bytes + c
    if L ≤ t then slot :: slot_layout rest L (slot + 1) 0
    else slot :: slot_layout rest L slot t

/-- The slots the greedy cost accumulator squashes, in order, determined purely
by the cost list. -/
def squash_layout (costs : List Nat) (L : Nat) (slot bytes : Nat) : List Nat :=
  match costs with
  | [] => []
  | c :: rest =>
    let t := bytes + c
    if L ≤ t then slot :: squash_layout rest L (slot + 1) 0
    else squash_layout rest L slot t

@[simp] lemma new_banks_created_append (t1 t2 : List MergeEvent) :
    new_banks_created (t1 ++ t2) = new_banks_created t1 + new_banks_created t2 := by
  simp [new_banks_created]

@[simp] lemma store_slots_append (t1 t2 : List MergeEvent) :
    store_slots (t1 ++ t2) = store_slots t1 ++ store_slots t2 := by
  simp [store_slots]

@[simp] lemma squash_slots_append (t1 t2 : List MergeEvent) :
    squash_slots (t1 ++ t2) = squash_slots t1 ++ squash_slots t2 := by
  simp [squash_slots]

@[simp] lemma new_banks_created_nil : new_banks_created [] = 0 := rfl

@[simp] lemma store_slots_nil : store_slots [] = [] := rfl

@[simp] lemma squash_slots_nil : squash_slots [] = [] := rfl

@[simp] lemma new_banks_created_store (s : Nat) (k : Pubkey) (t : List MergeEvent) :
    new_banks_created (MergeEvent.store s k :: t) = new_banks_created t := by
  simp [new_banks_created, List.filter_cons, is_new_bank]

@[simp] lemma new_banks_created_flush (s : Nat) (t : List MergeEvent) :
    new_banks_created (MergeEvent.flush s :: t) = new_banks_created t := by
  simp [new_banks_created, List.filter_cons, is_new_bank]

@[simp] lemma new_banks_created_squashed (s : Nat) (t : List MergeEvent) :
    new_banks_created (MergeEvent.squashed s :: t) = new_banks_created t := by
  simp [new_banks_created, List.filter_cons, is_new_bank]

@[simp] lemma new_banks_created_newBank (s : Nat) (c : Pubkey) (t : List MergeEvent) :
    new_banks_created (MergeEvent.newBank s c :: t) = new_banks_created t + 1 := by
  simp [new_banks_created, List.filter_cons, is_new_bank]

@[simp] lemma store_slots_store (s : Nat) (k : Pubkey) (t : List MergeEvent) :
    store_slots (MergeEvent.store s k :: t) = s :: store_slots t := by
  simp [store_slots]

@[simp] lemma store_slots_flush (s : Nat) (t : List MergeEvent) :
    store_slots (MergeEvent.flush s :: t) = store_slots t := by
  simp [store_slots]

@[simp] lemma store_slots_squashed (s : Nat) (t : List MergeEvent) :
    store_slots (MergeEvent.squashed s :: t) = store_slots t := by
  simp [store_slots]

@[simp] lemma store_slots_newBank (s : Nat) (c : Pubkey) (t : List MergeEvent) :
    store_slots (MergeEvent.newBank s c :: t) = store_slots t := by
  simp [store_slots]

@[simp] lemma squash_slots_store (s : Nat) (k : Pubkey) (t : List MergeEvent) :
    squash_slots (MergeEvent.store s k :: t) = squash_slots t := by
  simp [squash_slots]

@[simp] lemma squash_slots_flush (s : Nat) (t : List MergeEvent) :
    squash_slots (MergeEvent.flush s :: t) = squash_slots t := by
  simp [squash_slots]

@[simp] lemma squash_slots_squashed (s : Nat) (t : List MergeEvent) :
    squash_slots (MergeEvent.squashed s :: t) = s :: squash_slots t := by
  simp [squash_slots]

@[simp] lemma squash_slots_newBank (s : Nat) (c : Pubkey) (t : List MergeEvent) :
    squash_slots (MergeEvent.newBank s c :: t) = squash_slots t := by
  simp [squash_slots]

/-- Shifting the boundary counter of the greedy accumulator. -/
lemma greedy_foldl_shift (L : Nat) (costs : List Nat) :
    ∀ n b : Nat,
      costs.foldl (greedy_step L) (n, b)
        = ((costs.foldl (greedy_step L) (0, b)).1 + n, (costs.foldl (greedy_step L) (0, b)).2) := by
  induction costs with
  | nil => intro n b; simp
  | cons c rest ih =>
    intro n b
    simp only [List.foldl_cons, greedy_step]
    by_cases h : L ≤ b + c
    · simp only [if_pos h]
      rw [ih (n + 1) 0, ih 1 0]
      simp [Prod.mk.injEq]
      omega
    · simp only [if_neg h]
      exact ih n (b + c)

/-- The collector identifier is preserved through the apply loop. -/
lemma loop_collector (L : Nat) (recs : Accounts) :
    ∀ st : LoopState,
      (recs.foldl (add_accounts_step L) st).bank.collector_id = st.bank.collector_id := by
  induction recs with
  | nil => intro st; rfl
  | cons pa rest ih =>
    intro st
    simp only [List.foldl_cons, add_accounts_step]
    by_cases h : L ≤ st.bytes_in_current_slot + account_cost pa.2
    · simp only [h, if_true, ih]; rfl
    · simp only [h, if_false, ih]

/-- The final slot of the apply loop is the starting slot plus the number of
greedy boundaries of the cost list. -/
lemma loop_slot (L : Nat) (recs : Accounts) :
    ∀ st : LoopState,
      (recs.foldl (add_accounts_step L) st).bank.slot
        = st.bank.slot
          + ((recs.map (fun p => account_cost p.2)).foldl (greedy_step L)
              (0, st.bytes_in_current_slot)).1 := by
  induction recs with
  | nil => intro st; simp
  | cons pa rest ih =>
    intro st
    simp only [List.foldl_cons, List.map_cons, add_accounts_step, greedy_step]
    by_cases hby : L ≤ st.bytes_in_current_slot + account_cost pa.2
    · simp only [if_pos hby]
      rw [ih _, greedy_foldl_shift L _ 1 0]
      simp [new_from_parent, squash, force_flush_accounts_cache]
      omega
    · simp only [if_neg hby]
      exact ih _

/-- The loop's byte accumulator matches the greedy accumulator. -/
lemma loop_bytes (L : Nat) (recs : Accounts) :
    ∀ st : LoopState,
      (recs.foldl (add_accounts_step L) st).bytes_in_current_slot
        = ((recs.map (fun p => account_cost p.2)).foldl (greedy_step L)
            (0, st.bytes_in_current_slot)).2 := by
  induction recs with
  | nil => intro st; simp
  | cons pa rest ih =>
    intro st
    simp only [List.foldl_cons, List.map_cons, add_accounts_step, greedy_step]
    by_cases hby : L ≤ st.bytes_in_current_slot + account_cost pa.2
    · simp only [if_pos hby]
      rw [ih _, greedy_foldl_shift L _ 1 0]
    · simp only [if_neg hby]
      exact ih _

/-- The loop creates exactly one child bank per greedy boundary. -/
lemma loop_new_banks (L : Nat) (recs : Accounts) :
    ∀ st : LoopState,
      new_banks_created (recs.foldl (add_accounts_step L) st).trace
        = new_banks_created st.trace
          + ((recs.map (fun p => account_cost p.2)).foldl (greedy_step L)
              (0, st.bytes_in_current_slot)).1 := by
  induction recs with
  | nil => intro st; simp
  | cons pa rest ih =>
    intro st
    simp only [List.foldl_cons, List.map_cons, add_accounts_step, greedy_step]
    by_cases hby : L ≤ st.bytes_in_current_slot + account_cost pa.2
    · simp only [if_pos hby]
      rw [ih _, greedy_foldl_shift L _ 1 0]
      by_cases hmod : (st.count_since_flush + 1) % FLUSH_INTERVAL_ACCOUNTS = 0
      · simp only [if_pos hmod]
        simp
        omega
      · simp only [if_neg hmod]
        simp
        omega
    · simp only [if_neg hby]
      rw [ih _]
      by_cases hmod : (st.count_since_flush + 1) % FLUSH_INTERVAL_ACCOUNTS = 0
      · simp only [if_pos hmod]
        simp
      · simp only [if_neg hmod]
        simp

/-- Which slot each record lands in is exactly the layout computed from the
cost list alone. -/
lemma loop_store_slots (L : Nat) (recs : Accounts) :
    ∀ st : LoopState,
      store_slots (recs.foldl (add_accounts_step L) st).trace
        = store_slots st.trace
          ++ slot_layout (recs.map (fun p => account_cost p.2)) L
              st.bank.slot st.bytes_in_current_slot := by
  induction recs with
  | nil => intro st; simp [slot_layout]
  | cons pa rest ih =>
    intro st
    simp only [List.foldl_cons, List.map_cons, add_accounts_step, slot_layout]
    by_cases hby : L ≤ st.bytes_in_current_slot + account_cost pa.2
    · simp only [if_pos hby]
      rw [ih _]
      by_cases hmod : (st.count_since_flush + 1) % FLUSH_INTERVAL_ACCOUNTS = 0
      · simp only [if_pos hmod]
        simp [new_from_parent, squash, force_flush_accounts_cache]
      · simp only [if_neg hmod]
        simp [new_from_parent, squash, force_flush_accounts_cache]
    · simp only [if_neg hby]
      rw [ih _]
      by_cases hmod : (st.count_since_flush + 1) % FLUSH_INTERVAL_ACCOUNTS = 0
      · simp only [if_pos hmod]
        simp
      · simp only [if_neg hmod]
        simp

/-- Which slots get squashed is exactly the squash layout computed from the
cost list alone. -/
lemma loop_squash_slots (L : Nat) (recs : Accounts) :
    ∀ st : LoopState,
      squash_slots (recs.foldl (add_accounts_step L) st).trace
        = squash_slots st.trace
          ++ squash_layout (recs.map (fun p => account_cost p.2)) L
              st.bank.slot st.bytes_in_current_slot := by
  induction recs with
  | nil => intro st; simp [squash_layout]
  | cons pa rest ih =>
    intro st
    simp only [List.foldl_cons, List.map_cons, add_accounts_step, squash_layout]
    by_cases hby : L ≤ st.bytes_in_current_slot + account_cost pa.2
    · simp only [if_pos hby]
      rw [ih _]
      by_cases hmod : (st.count_since_flush + 1) % FLUSH_INTERVAL_ACCOUNTS = 0
      · simp only [if_pos hmod]
        simp [new_from_parent, squash, force_flush_accounts_cache]
      · simp only [if_neg hmod]
        simp [new_from_parent, squash, force_flush_accounts_cache]
    · simp only [if_neg hby]
      rw [ih _]
      by_cases hmod : (st.count_since_flush + 1) % FLUSH_INTERVAL_ACCOUNTS = 0
      · simp only [if_pos hmod]
        simp
      · simp only [if_neg hmod]
        simp

/-- Looking up the key just stored yields the stored record. -/
lemma get_account_store_self (m : Accounts) (k : Pubkey) (a : AccountSharedData) :
    get_account (store_account m k a) k = some a := by
  simp [get_account, store_account, List.find?]

/-- Filtering out the entries at one key does not change lookups at another key. -/
lemma find_filter_ne (m : Accounts) (k k2 : Pubkey) (h : k2 ≠ k) :
    (m.filter (fun p => decide (p.1 ≠ k))).find? (fun p => decide (p.1 = k2))
      = m.find? (fun p => decide (p.1 = k2)) := by
  rw [List.find?_filter]
  have hp : (fun (p : Pubkey × AccountSharedData) =>
        decide ((decide (p.1 ≠ k)) = true ∧ (decide (p.1 = k2)) = true))
      = (fun p => decide (p.1 = k2)) := by
    funext p
    by_cases hq : p.1 = k2
    · simp [hq, h]
    · simp [hq]
  rw [hp]

/-- Storing at a different key does not change a lookup. -/
lemma get_account_store_ne (m : Accounts) (k k2 : Pubkey) (a : AccountSharedData)
    (h : k2 ≠ k) :
    get_account (store_account m k a) k2 = get_account m k2 := by
  have hne : ¬ ((decide ((k, a).1 = k2)) = true) := by
    simp
    exact fun hk => h hk.symm
  simp only [get_account, store_account]
  rw [@List.find?_cons_of_neg _ (fun p => decide (p.1 = k2)) (k, a)
      (m.filter (fun p => decide (p.1 ≠ k))) hne,
    find_filter_ne m k k2 h]

/-- Folding zero-lamport stores over records whose keys avoid `k` leaves the
lookup at `k` unchanged. -/
lemma get_account_fold_store_not_mem (l : Accounts) (k : Pubkey) :
    ∀ m : Accounts, k ∉ l.map Prod.fst →
      get_account (l.foldl (fun b p => store_account b p.1 (set_lamports p.2 0)) m) k
        = get_account m k := by
  induction l with
  | nil => intro m _; rfl
  | cons q t ih =>
    intro m hk
    simp only [List.map_cons, List.mem_cons] at hk
    push_neg at hk
    simp only [List.foldl_cons]
    rw [ih _ hk.2, get_account_store_ne _ _ _ _ hk.1]

/-- Folding zero-lamport stores over a keyed record list with unique keys puts
a zero-balance tombstone at each of its keys. -/
lemma get_account_fold_store_mem (l : Accounts) (k : Pubkey) (a : AccountSharedData) :
    (k, a) ∈ l → (l.map Prod.fst).Nodup →
    ∀ m : Accounts,
      get_account (l.foldl (fun b p => store_account b p.1 (set_lamports p.2 0)) m) k
        = some (set_lamports a 0) := by
  induction l with
  | nil => intro h; exact absurd h (List.not_mem_nil _)
  | cons q t ih =>
    intro hmem hnd m
    simp only [List.map_cons, List.nodup_cons] at hnd
    rcases List.mem_cons.mp hmem with heq | hmemt
    · subst heq
      simp only [List.foldl_cons]
      have hk : k ∉ t.map Prod.fst := hnd.1
      rw [get_account_fold_store_not_mem t k _ hk, get_account_store_self]
    · have hk : k ∈ t.map Prod.fst := List.mem_map.mpr ⟨(k, a), hmemt, rfl⟩
      simp only [List.foldl_cons]
      exact ih hmemt hnd.2 _

/-- Dropping zero-balance records does not change the balance sum. -/
lemma live_lamports_sum (l : Accounts) :
    ((live_accounts l).map (fun p => p.2.lamports)).sum
      = (l.map (fun p => p.2.lamports)).sum := by
  induction l with
  | nil => rfl
  | cons p t ih =>
    by_cases h : p.2.lamports = 0
    · simp [live_accounts, List.filter_cons, h] at ih ⊢
      simpa [h] using ih
    · simp [live_accounts, List.filter_cons, h] at ih ⊢
      simpa [h] using ih

/-- A concrete general account with empty data (cost exactly 512). -/
def empty_data_account : AccountSharedData :=
  { lamports := 1, data := [], owner := 9, executable := false, rent_epoch := 0 }

/-- A second concrete account with empty data but different key-independent
fields, for the determinism witness. -/
def alt_empty_data_account : AccountSharedData :=
  { lamports := 777, data := [], owner := 5, executable := true, rent_epoch := 3 }

/-- A concrete Other-class account. -/
def test_other_account : AccountSharedData :=
  { lamports := 10, data := [], owner := 7, executable := false, rent_epoch := 0 }

/-- A concrete vote-class account. -/
def test_vote_account : AccountSharedData :=
  { lamports := 11, data := [0], owner := vote_program_id, executable := false, rent_epoch := 0 }

/-- A concrete stake-class account. -/
def test_stake_account : AccountSharedData :=
  { lamports := 12, data := [1], owner := stake_program_id, executable := false, rent_epoch := 0 }

/-- A concrete working bank at slot 100. -/
def test_bank : Bank :=
  { slot := 100, parentSlot := none, collector_id := 42,
    accounts := [(10, test_other_account)], capitalization := 0,
    squashed := false, flushed := false }

/-- A concrete squashed-and-flushed bank at slot 100, ready for a warp. -/
def warp_test_bank : Bank :=
  { slot := 100, parentSlot := none, collector_id := 42,
    accounts := [(10, test_other_account)], capitalization := 10,
    squashed := true, flushed := true }

/-- The four-record fixture refuting the global-ceiling slot count. -/
def c5_records : Accounts :=
  [(1, empty_data_account), (2, empty_data_account),
   (3, empty_data_account), (4, empty_data_account)]

/-- C2: after the capitalization reconciliation step the stored aggregate of
the bank equals the literal sum of all live (nonzero) account balances, for
every bank state — in particular for zero accounts, one account and balances
at the 64-bit boundary, all instances of this universal statement. -/
theorem recalculate_capitalization_exact (b : Bank) :
    (recalculate_capitalization b).capitalization
      = ((live_accounts b.accounts).map (fun p => p.2.lamports)).sum := by
  simp [recalculate_capitalization, set_capitalization, calculate_capitalization,
    live_lamports_sum]

/-- C6: warping a squashed, flushed bank to a strictly later target slot
yields a bank at exactly the target slot whose parent is the input bank, with
no intermediate slot between the two materialized (the parent link goes
directly from the target slot to the input slot). -/
theorem warp_exact_slot (b : Bank) (c : Pubkey) (t : Nat)
    (hsq : b.squashed = true) (hfl : b.flushed = true) (hlt : b.slot < t) :
    warp_from_parent b c t = Except.ok (new_from_parent b c t)
    ∧ (new_from_parent b c t).slot = t
    ∧ (new_from_parent b c t).parentSlot = some b.slot := by
  refine ⟨?_, rfl, rfl⟩
  simp [warp_from_parent, hsq, hfl, hlt]

/-- Witness for C6 at a concrete squashed, flushed bank and target slot 500. -/
theorem warp_exact_slot_witness :
    warp_from_parent warp_test_bank 42 500
      = Except.ok (new_from_parent warp_test_bank 42 500)
    ∧ (new_from_parent warp_test_bank 42 500).slot = 500
    ∧ (new_from_parent warp_test_bank 42 500).parentSlot = some warp_test_bank.slot :=
  warp_exact_slot warp_test_bank 42 500 (by decide) (by decide) (by decide)

/-- C7: requesting a warp to a slot at or below the merged bank's current slot
makes the warp step fail with an error instead of producing a bank. -/
theorem warp_step_rejects_low_target (merged : Bank) (t : Nat) (hle : t ≤ merged.slot) :
    warp_step merged (some t) = Except.error "warp precondition violated" := by
  simp [warp_step, warp_from_parent, squash, force_flush_accounts_cache,
    Nat.not_lt.mpr hle]

/-- Witness for C7: warping the slot-100 bank to slot 100 fails. -/
theorem warp_step_rejects_low_target_witness :
    warp_step test_bank (some 100) = Except.error "warp precondition violated" :=
  warp_step_rejects_low_target test_bank 100 (by decide)

/-- C10: a warp-slot argument that does not parse as an unsigned number is
silently treated as if the flag were absent, and the merge completes with the
merged bank unchanged, performing no warp. -/
theorem warp_slot_arg_ignored (s : String) (b : Bank) (h : parse_slot s = none) :
    parse_warp_slot (some s) = none
    ∧ warp_step b (parse_warp_slot (some s)) = Except.ok b := by
  constructor
  · simp [parse_warp_slot, h]
  · simp [parse_warp_slot, h, warp_step]

/-- Witness for C10 at the argument string `18446744073709551616` (exactly
`2 ^ 64`), an all-digit value that overflows the unsigned 64-bit parse and is
therefore silently ignored. -/
theorem warp_slot_arg_ignored_witness :
    parse_warp_slot (some "18446744073709551616") = none
    ∧ warp_step test_bank (parse_warp_slot (some "18446744073709551616"))
        = Except.ok test_bank :=
  warp_slot_arg_ignored "18446744073709551616" test_bank (by decide)

/-- Counterexample to C5: four empty-data records (cost 512 each, sum 2048)
with byte limit 514. The loop squashes after records 2 and 4, so the chain has
3 slots beyond the base (the starting slot plus 2 created children, the last
holding no records) and records land in only 2 distinct slots, while
`ceil(sum/L) = ceil(2048/514) = 4`. -/
theorem add_accounts_ceil_count_counterexample :
    (1 + new_banks_created (add_accounts test_bank c5_records 514).trace
        ≠ ((c5_records.map (fun p => account_cost p.2)).sum + 514 - 1) / 514)
    ∧ ((store_slots (add_accounts test_bank c5_records 514).trace).dedup.length
        ≠ ((c5_records.map (fun p => account_cost p.2)).sum + 514 - 1) / 514) := by
  decide

/-- C5 as amended: slot boundaries fall exactly where the cost accumulated
since the last boundary (not the global cumulative cost) first reaches or
exceeds the limit; the loop creates one child slot per such boundary record,
so the chain beyond the base is the starting slot plus `greedy_boundaries`
children (the last of which holds no records when the final record itself
triggers a boundary), and each record lands in the slot given by the greedy
`slot_layout` of the cost list. -/
theorem add_accounts_greedy_slot_count (b0 : Bank) (recs : Accounts) (L : Nat) :
    new_banks_created (add_accounts b0 recs L).trace
      = greedy_boundaries (recs.map (fun p => account_cost p.2)) L
    ∧ (add_accounts b0 recs L).bank.slot
      = b0.slot + greedy_boundaries (recs.map (fun p => account_cost p.2)) L
    ∧ store_slots (add_accounts b0 recs L).trace
      = slot_layout (recs.map (fun p => account_cost p.2)) L b0.slot 0 := by
  refine ⟨?_, ?_, ?_⟩
  · simp [add_accounts, greedy_boundaries, loop_new_banks]
  · simp [add_accounts, greedy_boundaries, loop_slot]
  · simp [add_accounts, loop_store_slots]

/-- C8: the slots records land in, the squashed slots and the final slot are
a deterministic function of the record order and the byte-cost model alone —
two applications from the same bank whose record sequences have identical
cost lists (data lengths) produce identical slot boundaries, regardless of
keys, balances or any other field. -/
theorem add_accounts_layout_deterministic (b0 : Bank) (recs1 recs2 : Accounts) (L : Nat)
    (h : recs1.map (fun p => account_cost p.2) = recs2.map (fun p => account_cost p.2)) :
    store_slots (add_accounts b0 recs1 L).trace = store_slots (add_accounts b0 recs2 L).trace
    ∧ squash_slots (add_accounts b0 recs1 L).trace
        = squash_slots (add_accounts b0 recs2 L).trace
    ∧ (add_accounts b0 recs1 L).bank.slot = (add_accounts b0 recs2 L).bank.slot := by
  refine ⟨?_, ?_, ?_⟩
  · simp [add_accounts, loop_store_slots, h]
  · simp [add_accounts, loop_squash_slots, h]
  · simp [add_accounts, loop_slot, h]

/-- Witness for C8: two single-record sequences with different keys, balances
and owners but the same data length produce the same layout. -/
theorem add_accounts_layout_deterministic_witness :
    store_slots (add_accounts test_bank [(1, empty_data_account)] 600).trace
      = store_slots (add_accounts test_bank [(2, alt_empty_data_account)] 600).trace
    ∧ squash_slots (add_accounts test_bank [(1, empty_data_account)] 600).trace
        = squash_slots (add_accounts test_bank [(2, alt_empty_data_account)] 600).trace
    ∧ (add_accounts test_bank [(1, empty_data_account)] 600).bank.slot
        = (add_accounts test_bank [(2, alt_empty_data_account)] 600).bank.slot :=
  add_accounts_layout_deterministic test_bank
    [(1, empty_data_account)] [(2, alt_empty_data_account)] 600 (by decide)

/-- C9: when the record counter reaches a multiple of `FLUSH_INTERVAL_ACCOUNTS`
(250000), the loop body emits a flush right after the store — and if the byte
limit is not also reached, nothing else: no squash, no new bank, the slot
unchanged; independently, `add_accounts` always ends with an unconditional
final flush of the returned bank's slot, whatever the input. -/
theorem add_accounts_flush_discipline (L : Nat) (st : LoopState)
    (pa : Pubkey × AccountSharedData) (b0 : Bank) (recs : Accounts) (l2 : Nat) :
    ((st.count_since_flush + 1) % FLUSH_INTERVAL_ACCOUNTS = 0 →
      st.bytes_in_current_slot + account_cost pa.2 < L →
      (add_accounts_step L st pa).trace
        = st.trace ++ [MergeEvent.store st.bank.slot pa.1, MergeEvent.flush st.bank.slot]
      ∧ (add_accounts_step L st pa).bank.slot = st.bank.slot)
    ∧ (add_accounts b0 recs l2).trace.getLast?
        = some (MergeEvent.flush (add_accounts b0 recs l2).bank.slot) := by
  constructor
  · intro hmod hby
    have hby2 : ¬ (L ≤ st.bytes_in_current_slot + account_cost pa.2) := Nat.not_le.mpr hby
    constructor
    · simp [add_accounts_step, hmod, hby2]
    · simp [add_accounts_step, hmod, hby2]
  · simp [add_accounts, List.getLast?_concat]

/-- Witness for C9: a loop state whose counter stands at 249999, so the next
record is the 250000th since the last reset; the byte limit is far away. -/
theorem add_accounts_flush_discipline_witness :
    ((add_accounts_step 100000
        { bank := test_bank, count_since_flush := 249999, bytes_in_current_slot := 0,
          trace := [] } (7, empty_data_account)).trace
      = [] ++ [MergeEvent.store test_bank.slot 7, MergeEvent.flush test_bank.slot]
      ∧ (add_accounts_step 100000
          { bank := test_bank, count_since_flush := 249999, bytes_in_current_slot := 0,
            trace := [] } (7, empty_data_account)).bank.slot = test_bank.slot)
    ∧ (add_accounts test_bank [] 1000).trace.getLast?
        = some (MergeEvent.flush (add_accounts test_bank [] 1000).bank.slot) := by
  have h := add_accounts_flush_discipline 100000
    { bank := test_bank, count_since_flush := 249999, bytes_in_current_slot := 0,
      trace := [] } (7, empty_data_account) test_bank [] 1000
  exact ⟨h.1 (by decide) (by decide), h.2⟩

/-- C3: whenever the per-slot byte accumulator reaches the limit, the loop
body flushes and squashes the current working bank and opens a new child at
`parent.slot + 1` with the same collector, resetting the accumulators; in the
concrete 3-record empty-data run with limit 1000 the squash happens right
after the second record, leaving a chain of 2 slots beyond the base with 2
and 1 records respectively. -/
theorem add_accounts_three_record_batching (L : Nat) (st : LoopState)
    (pa : Pubkey × AccountSharedData) (b0 : Bank) (k1 k2 k3 : Pubkey)
    (a1 a2 a3 : AccountSharedData) :
    (L ≤ st.bytes_in_current_slot + account_cost pa.2 →
      (add_accounts_step L st pa).bank.slot = st.bank.slot + 1
      ∧ (add_accounts_step L st pa).bank.collector_id = st.bank.collector_id
      ∧ (add_accounts_step L st pa).bytes_in_current_slot = 0
      ∧ (add_accounts_step L st pa).count_since_flush = 0
      ∧ ∃ t2, (add_accounts_step L st pa).trace
          = t2 ++ [MergeEvent.flush st.bank.slot, MergeEvent.squashed st.bank.slot,
                   MergeEvent.newBank (st.bank.slot + 1) st.bank.collector_id])
    ∧ (a1.data = [] → a2.data = [] → a3.data = [] →
      (add_accounts b0 [(k1, a1), (k2, a2), (k3, a3)] 1000).trace
        = [MergeEvent.store b0.slot k1, MergeEvent.store b0.slot k2,
           MergeEvent.flush b0.slot, MergeEvent.squashed b0.slot,
           MergeEvent.newBank (b0.slot + 1) b0.collector_id,
           MergeEvent.store (b0.slot + 1) k3, MergeEvent.flush (b0.slot + 1)]
      ∧ records_in_slot (add_accounts b0 [(k1, a1), (k2, a2), (k3, a3)] 1000).trace
          b0.slot = 2
      ∧ records_in_slot (add_accounts b0 [(k1, a1), (k2, a2), (k3, a3)] 1000).trace
          (b0.slot + 1) = 1
      ∧ (add_accounts b0 [(k1, a1), (k2, a2), (k3, a3)] 1000).bank.slot = b0.slot + 1
      ∧ (add_accounts b0 [(k1, a1), (k2, a2), (k3, a3)] 1000).bank.collector_id
          = b0.collector_id
      ∧ (add_accounts b0 [(k1, a1), (k2, a2), (k3, a3)] 1000).bytes_in_current_slot
          = 512) := by
  constructor
  · intro hby
    refine ⟨?_, ?_, ?_, ?_, ?_⟩
    · simp [add_accounts_step, hby, new_from_parent, squash, force_flush_accounts_cache]
    · simp [add_accounts_step, hby, new_from_parent, squash, force_flush_accounts_cache]
    · simp [add_accounts_step, hby]
    · simp [add_accounts_step, hby]
    · simp only [add_accounts_step, if_pos hby]
      exact ⟨_, rfl⟩
  · intro h1 h2 h3
    have hc1 : account_cost a1 = 512 := by simp [account_cost, h1, ACCOUNT_STORAGE_OVERHEAD]
    have hc2 : account_cost a2 = 512 := by simp [account_cost, h2, ACCOUNT_STORAGE_OVERHEAD]
    have hc3 : account_cost a3 = 512 := by simp [account_cost, h3, ACCOUNT_STORAGE_OVERHEAD]
    have htr : (add_accounts b0 [(k1, a1), (k2, a2), (k3, a3)] 1000).trace
        = [MergeEvent.store b0.slot k1, MergeEvent.store b0.slot k2,
           MergeEvent.flush b0.slot, MergeEvent.squashed b0.slot,
           MergeEvent.newBank (b0.slot + 1) b0.collector_id,
           MergeEvent.store (b0.slot + 1) k3, MergeEvent.flush (b0.slot + 1)] := by
      norm_num [add_accounts, add_accounts_step, hc1, hc2, hc3,
        FLUSH_INTERVAL_ACCOUNTS, new_from_parent, squash, force_flush_accounts_cache]
    have hne1 : ((b0.slot + 1 == b0.slot) = false) := by simp
    have hne2 : ((b0.slot == b0.slot + 1) = false) := by simp
    refine ⟨htr, ?_, ?_, ?_, ?_, ?_⟩
    · rw [htr]
      simp [records_in_slot, is_store_at, List.filter, hne1, hne2]
    · rw [htr]
      simp [records_in_slot, is_store_at, List.filter, hne1, hne2]
    · norm_num [add_accounts, add_accounts_step, hc1, hc2, hc3,
        FLUSH_INTERVAL_ACCOUNTS, new_from_parent, squash, force_flush_accounts_cache]
    · norm_num [add_accounts, add_accounts_step, hc1, hc2, hc3,
        FLUSH_INTERVAL_ACCOUNTS, new_from_parent, squash, force_flush_accounts_cache]
    · norm_num [add_accounts, add_accounts_step, hc1, hc2, hc3,
        FLUSH_INTERVAL_ACCOUNTS, new_from_parent, squash, force_flush_accounts_cache]

/-- Witness for C3 at a concrete bank and three concrete empty-data records. -/
theorem add_accounts_three_record_batching_witness :
    (1000 ≤ 600 + account_cost empty_data_account →
      (add_accounts_step 1000
          { bank := test_bank, count_since_flush := 0, bytes_in_current_slot := 600,
            trace := [] } (5, empty_data_account)).bank.slot = test_bank.slot + 1
      ∧ (add_accounts_step 1000
          { bank := test_bank, count_since_flush := 0, bytes_in_current_slot := 600,
            trace := [] } (5, empty_data_account)).bank.collector_id = test_bank.collector_id
      ∧ (add_accounts_step 1000
          { bank := test_bank, count_since_flush := 0, bytes_in_current_slot := 600,
            trace := [] } (5, empty_data_account)).bytes_in_current_slot = 0
      ∧ (add_accounts_step 1000
          { bank := test_bank, count_since_flush := 0, bytes_in_current_slot := 600,
            trace := [] } (5, empty_data_account)).count_since_flush = 0
      ∧ ∃ t2, (add_accounts_step 1000
          { bank := test_bank, count_since_flush := 0, bytes_in_current_slot := 600,
            trace := [] } (5, empty_data_account)).trace
          = t2 ++ [MergeEvent.flush test_bank.slot, MergeEvent.squashed test_bank.slot,
                   MergeEvent.newBank (test_bank.slot + 1) test_bank.collector_id])
    ∧ (empty_data_account.data = [] → empty_data_account.data = [] →
        empty_data_account.data = [] →
      (add_accounts test_bank
          [(1, empty_data_account), (2, empty_data_account), (3, empty_data_account)]
          1000).trace
        = [MergeEvent.store test_bank.slot 1, MergeEvent.store test_bank.slot 2,
           MergeEvent.flush test_bank.slot, MergeEvent.squashed test_bank.slot,
           MergeEvent.newBank (test_bank.slot + 1) test_bank.collector_id,
           MergeEvent.store (test_bank.slot + 1) 3, MergeEvent.flush (test_bank.slot + 1)]
      ∧ records_in_slot (add_accounts test_bank
          [(1, empty_data_account), (2, empty_data_account), (3, empty_data_account)]
          1000).trace test_bank.slot = 2
      ∧ records_in_slot (add_accounts test_bank
          [(1, empty_data_account), (2, empty_data_account), (3, empty_data_account)]
          1000).trace (test_bank.slot + 1) = 1
      ∧ (add_accounts test_bank
          [(1, empty_data_account), (2, empty_data_account), (3, empty_data_account)]
          1000).bank.slot = test_bank.slot + 1
      ∧ (add_accounts test_bank
          [(1, empty_data_account), (2, empty_data_account), (3, empty_data_account)]
          1000).bank.collector_id = test_bank.collector_id
      ∧ (add_accounts test_bank
          [(1, empty_data_account), (2, empty_data_account), (3, empty_data_account)]
          1000).bytes_in_current_slot = 512) :=
  add_accounts_three_record_batching 1000
    { bank := test_bank, count_since_flush := 0, bytes_in_current_slot := 600, trace := [] }
    (5, empty_data_account) test_bank 1 2 3
    empty_data_account empty_data_account empty_data_account

/-- C4: excluding a key already present with nonzero balance never removes
the key — after `remove_vote_accounts` the key still holds a record, stored
back with balance zero (a tombstone), not deleted. -/
theorem exclude_tombstone_not_delete (accts : Accounts) (k : Pubkey)
    (a : AccountSharedData) (hnd : (accts.map Prod.fst).Nodup) (hmem : (k, a) ∈ accts)
    (ho : a.owner = vote_program_id) (hl : a.lamports ≠ 0) :
    get_account (remove_vote_accounts accts).1 k = some (set_lamports a 0) := by
  have hmemf : (k, a) ∈ get_program_accounts accts vote_program_id := by
    simp [get_program_accounts, List.mem_filter, hmem, ho, hl]
  have hsub : List.Sublist (get_program_accounts accts vote_program_id) accts :=
    List.filter_sublist _
  have hndf : ((get_program_accounts accts vote_program_id).map Prod.fst).Nodup :=
    hnd.sublist (hsub.map Prod.fst)
  exact get_account_fold_store_mem _ k a hmemf hndf accts

/-- Witness for C4: a two-account store where key 11 holds a nonzero vote
account; after removal it holds the zero-balance tombstone. -/
theorem exclude_tombstone_not_delete_witness :
    get_account
        (remove_vote_accounts [(11, test_vote_account), (10, test_other_account)]).1 11
      = some (set_lamports test_vote_account 0) :=
  exclude_tombstone_not_delete [(11, test_vote_account), (10, test_other_account)]
    11 test_vote_account (by decide) (by decide) (by decide) (by decide)

/-- C1: under the cross-source overwrite policy, a target of
`{A(Other), B(Vote), C(Stake)}` merged with a source of `{D(Vote), E(Stake)}`
ends with live account set exactly `{A, D, E}`: the Other-class record passes
through unchanged and the target's Vote/Stake records survive only as
zero-balance tombstones, replaced by the source's Vote/Stake records. -/
theorem overwrite_policy_final_set
    (kA kB kC kD kE : Pubkey) (A B C D E : AccountSharedData)
    (hAB : kA ≠ kB) (hAC : kA ≠ kC) (hBC : kB ≠ kC)
    (hDA : kD ≠ kA) (hDB : kD ≠ kB) (hDC : kD ≠ kC)
    (hEA : kE ≠ kA) (hEB : kE ≠ kB) (hEC : kE ≠ kC) (hDE : kD ≠ kE)
    (hAv : A.owner ≠ vote_program_id) (hAs : A.owner ≠ stake_program_id)
    (hBo : B.owner = vote_program_id) (hCo : C.owner = stake_program_id)
    (hDo : D.owner = vote_program_id) (hEo : E.owner = stake_program_id)
    (hA : A.lamports ≠ 0) (hB : B.lamports ≠ 0) (hC : C.lamports ≠ 0)
    (hD : D.lamports ≠ 0) (hE : E.lamports ≠ 0) :
    live_accounts (merge_snapshots_accounts [(kA, A), (kB, B), (kC, C)] [(kD, D), (kE, E)])
      = [(kE, E), (kD, D), (kA, A)]
    ∧ get_account
        (merge_snapshots_accounts [(kA, A), (kB, B), (kC, C)] [(kD, D), (kE, E)]) kB
        = some (set_lamports B 0)
    ∧ get_account
        (merge_snapshots_accounts [(kA, A), (kB, B), (kC, C)] [(kD, D), (kE, E)]) kC
        = some (set_lamports C 0) := by
  have hAv1 : ¬ (A.owner = 1) := by simpa [vote_program_id] using hAv
  have hAs2 : ¬ (A.owner = 2) := by simpa [stake_program_id] using hAs
  have hBo1 : B.owner = 1 := by simpa [vote_program_id] using hBo
  have hCo2 : C.owner = 2 := by simpa [stake_program_id] using hCo
  have hDo1 : D.owner = 1 := by simpa [vote_program_id] using hDo
  have hEo2 : E.owner = 2 := by simpa [stake_program_id] using hEo
  have hB2 : ¬ (B.owner = 2) := by rw [hBo1]; decide
  have hC1 : ¬ (C.owner = 1) := by rw [hCo2]; decide
  have hD2 : ¬ (D.owner = 2) := by rw [hDo1]; decide
  have hE1 : ¬ (E.owner = 1) := by rw [hEo2]; decide
  have h1 : get_program_accounts [(kA, A), (kB, B), (kC, C)] vote_program_id
      = [(kB, B)] := by
    simp [get_program_accounts, List.filter, hAv1, hBo1, hC1, hB, vote_program_id]
  have h2 : (remove_vote_accounts [(kA, A), (kB, B), (kC, C)]).1
      = [(kB, set_lamports B 0), (kA, A), (kC, C)] := by
    simp [remove_vote_accounts, h1, store_account, List.filter, hAB, Ne.symm hBC]
  have h3 : get_program_accounts [(kB, set_lamports B 0), (kA, A), (kC, C)]
        stake_program_id = [(kC, C)] := by
    simp [get_program_accounts, List.filter, set_lamports, hAs2, hCo2, hC,
      stake_program_id]
  have h4 : (remove_stake_accounts [(kB, set_lamports B 0), (kA, A), (kC, C)]).1
      = [(kC, set_lamports C 0), (kB, set_lamports B 0), (kA, A)] := by
    simp [remove_stake_accounts, h3, store_account, List.filter, hBC, hAC]
  have h5 : extract_vote_accounts [(kD, D), (kE, E)] = [(kD, D)] := by
    simp [extract_vote_accounts, get_program_accounts, List.filter, hDo1, hE1, hD,
      vote_program_id]
  have h6 : extract_stake_accounts [(kD, D), (kE, E)] = [(kE, E)] := by
    simp [extract_stake_accounts, get_program_accounts, List.filter, hD2, hEo2, hE,
      stake_program_id]
  have h7 : add_accounts_simple [(kC, set_lamports C 0), (kB, set_lamports B 0), (kA, A)]
        [(kD, D)]
      = [(kD, D), (kC, set_lamports C 0), (kB, set_lamports B 0), (kA, A)] := by
    simp [add_accounts_simple, store_account, List.filter,
      Ne.symm hDC, Ne.symm hDB, Ne.symm hDA]
  have h8 : add_accounts_simple
        [(kD, D), (kC, set_lamports C 0), (kB, set_lamports B 0), (kA, A)] [(kE, E)]
      = [(kE, E), (kD, D), (kC, set_lamports C 0), (kB, set_lamports B 0), (kA, A)] := by
    simp [add_accounts_simple, store_account, List.filter, hDE,
      Ne.symm hEC, Ne.symm hEB, Ne.symm hEA]
  have hfin : merge_snapshots_accounts [(kA, A), (kB, B), (kC, C)] [(kD, D), (kE, E)]
      = [(kE, E), (kD, D), (kC, set_lamports C 0), (kB, set_lamports B 0), (kA, A)] := by
    simp only [merge_snapshots_accounts, h2, h4, h5, h6, h7, h8]
  refine ⟨?_, ?_, ?_⟩
  · rw [hfin]
    simp [live_accounts, List.filter, set_lamports, hA, hD, hE]
  · rw [hfin]
    simp [get_account, List.find?, hEB, hDB, Ne.symm hBC, set_lamports]
  · rw [hfin]
    simp [get_account, List.find?, hEC, hDC, set_lamports]

/-- Witness for C1 at five concrete accounts with distinct keys. -/
theorem overwrite_policy_final_set_witness :
    live_accounts (merge_snapshots_accounts
        [(10, test_other_account), (11, test_vote_account), (12, test_stake_account)]
        [(13, test_vote_account), (14, test_stake_account)])
      = [(14, test_stake_account), (13, test_vote_account), (10, test_other_account)]
    ∧ get_account (merge_snapshots_accounts
        [(10, test_other_account), (11, test_vote_account), (12, test_stake_account)]
        [(13, test_vote_account), (14, test_stake_account)]) 11
        = some (set_lamports test_vote_account 0)
    ∧ get_account (merge_snapshots_accounts
        [(10, test_other_account), (11, test_vote_account), (12, test_stake_account)]
        [(13, test_vote_account), (14, test_stake_account)]) 12
        = some (set_lamports test_stake_account 0) :=
  overwrite_policy_final_set 10 11 12 13 14
    test_other_account test_vote_account test_stake_account
    test_vote_account test_stake_account
    (by decide) (by decide) (by decide) (by decide) (by decide) (by decide)
    (by decide) (by decide) (by decide) (by decide) (by decide) (by decide)
    (by decide) (by decide) (by decide) (by decide) (by decide) (by decide)
    (by decide) (by decide) (by decide)
